import Mathlib

set_option maxHeartbeats 1000000

/- Shallow embedding of the PartSelect chatbot scraping module.
   The JS source is embedded as executable Lean definitions: JS string
   primitives over character lists, the sliding-window rate limiter, the
   singleton browser session manager, the two URL-resolution strategies,
   the pure HTML extractor and the three public operations.  DOM queries,
   regex-match outcomes and network fetches are the external boundary and
   appear as explicit data (a Doc of query results, an Env of fetch
   outcomes); everything after that boundary follows the source line by
   line. -/

/-- ASCII uppercase of one character, the effect of JS toUpperCase on the
ASCII identifiers used by the program. -/
def asciiUpperChar (c : Char) : Char :=
  if c.toNat ≥ 97 && c.toNat ≤ 122 then Char.ofNat (c.toNat - 32) else c

/-- ASCII lowercase of one character, the effect of JS toLowerCase. -/
def asciiLowerChar (c : Char) : Char :=
  if c.toNat ≥ 65 && c.toNat ≤ 90 then Char.ofNat (c.toNat + 32) else c

/-- Model of JS String.prototype.toUpperCase. -/
def jsUpper (s : String) : String := ⟨s.data.map asciiUpperChar⟩

/-- Model of JS String.prototype.toLowerCase. -/
def jsLower (s : String) : String := ⟨s.data.map asciiLowerChar⟩

/-- Model of JS String.prototype.trim: drop whitespace from both ends. -/
def jsTrim (s : String) : String :=
  ⟨((s.data.dropWhile Char.isWhitespace).reverse.dropWhile Char.isWhitespace).reverse⟩

/-- Model of JS substring(0, n). -/
def jsSubstring (s : String) (n : Nat) : String := ⟨s.data.take n⟩

/-- Model of JS startsWith. -/
def jsStartsWith (s pat : String) : Bool := pat.data.isPrefixOf s.data

/-- Decidable infix test on character lists (JS String.prototype.includes). -/
def listInfixB (sub : List Char) : List Char → Bool
  | [] => sub.isEmpty
  | c :: t => sub.isPrefixOf (c :: t) || listInfixB sub t

/-- Model of JS s.includes(sub). -/
def strContainsB (s sub : String) : Bool := listInfixB sub.data s.data

/-- Model of the JS string-or idiom a || b (empty string is falsy). -/
def jsOr (a b : String) : String := if a = "" then b else a

/-- Model of the JS or chain attr(..) || b where attr may be undefined. -/
def jsOrO (a : Option String) (b : String) : String :=
  match a with
  | some s => if s = "" then b else s
  | none => b

/-- Hex digit for percent encoding (uppercase). -/
def hexDigitChar (n : Nat) : Char :=
  if n < 10 then Char.ofNat (48 + n) else Char.ofNat (55 + n)

/-- Characters left unescaped by JS encodeURIComponent. -/
def isUnreservedChar (c : Char) : Bool :=
  c.isAlphanum || c = '-' || c = '_' || c = '.' || c = '!' || c = '~' ||
    c = '*' || c = '\'' || c = '(' || c = ')'

/-- Percent encoding of one character via its UTF-8 bytes. -/
def percentEncodeChar (c : Char) : List Char :=
  (String.utf8EncodeChar c).foldr
    (fun b acc => '%' :: hexDigitChar (b.toNat / 16) :: hexDigitChar (b.toNat % 16) :: acc) []

/-- Model of JS encodeURIComponent. -/
def encodeURIComponentM (s : String) : String :=
  ⟨s.data.foldr (fun c acc => (if isUnreservedChar c then [c] else percentEncodeChar c) ++ acc) []⟩

/-- Replacement of every maximal whitespace run by a single hyphen, the JS
replace of the whitespace-run pattern with a hyphen used to build the
repair-help slug.  The flag records whether the previous character was
whitespace. -/
def collapseWsAux : List Char → Bool → List Char
  | [], _ => []
  | c :: rest, prevWs =>
    if c.isWhitespace then
      (if prevWs then [] else ['-']) ++ collapseWsAux rest true
    else
      c :: collapseWsAux rest false

/-- Slugification step searchQuery.replace of whitespace runs with hyphens. -/
def collapseWs (s : String) : String := ⟨collapseWsAux s.data false⟩

/-- Base URL constant of the module. -/
def BASE_URL : String := "https://www.partselect.com"

/-- Rate limit constant: 60 requests per window. -/
def RATE_LIMIT : Nat := 60

/-- Rate window constant: one minute in milliseconds. -/
def RATE_WINDOW_MS : Nat := 60000

/-- Eviction loop of waitForRateLimit: shift timestamps strictly older than
now minus the window from the front of the shared array. -/
def evictOld (now : Nat) (ts : List Nat) : List Nat :=
  ts.dropWhile (fun t => t < now - RATE_WINDOW_MS)

/-- Outcome of one atomic segment of waitForRateLimit: the shared window
array after the segment, the admission timestamp if the caller pushed and
returned, and the timer expiry if the caller suspended on the setTimeout
await. -/
structure RLStep where
  window : List Nat
  admittedAt : Option Nat
  wakeAt : Option Nat
  deriving DecidableEq

/-- Synchronous prologue of waitForRateLimit at call time now: evict, test
the limit and either push and return (no await on this path) or compute the
wait and suspend until the oldest timestamp plus the window. -/
def rlPhase1 (now : Nat) (ts : List Nat) : RLStep :=
  let ts1 := evictOld now ts
  if ts1.length ≥ RATE_LIMIT then
    let oldest := ts1.headD 0
    let wait := oldest + RATE_WINDOW_MS - now
    if wait > 0 then
      { window := ts1, admittedAt := none, wakeAt := some (oldest + RATE_WINDOW_MS) }
    else
      { window := ts1.tail ++ [now], admittedAt := some now, wakeAt := none }
  else
    { window := ts1 ++ [now], admittedAt := some now, wakeAt := none }

/-- Resumption of waitForRateLimit after the setTimeout await at time wake:
shift the front timestamp once and push the current time.  The source does
not re-run the eviction loop or re-test the limit here. -/
def rlPhase2 (wake : Nat) (ts : List Nat) : RLStep :=
  { window := ts.tail ++ [wake], admittedAt := some wake, wakeAt := none }

/-- Membership of an admission timestamp in the trailing window of length
RATE_WINDOW_MS ending at t, the half-open interval where the code treats a
timestamp of age exactly the window as expired. -/
def inWindow (t a : Nat) : Bool := decide (t < a + RATE_WINDOW_MS) && decide (a ≤ t)

/-- Number of admissions of a history that fall in the trailing window
ending at t. -/
def admissionsInWindow (hist : List Nat) (t : Nat) : Nat :=
  (hist.filter (inWindow t)).length

/-- Shared window state after sixty sequential admissions, one at time 0
and fifty-nine at time 59000, all under the limit. -/
def raceWindow0 : List Nat := 0 :: List.replicate 59 59000

/-- Caller A runs the prologue of waitForRateLimit at time 59001: the
window is full, so A suspends until time 60000. -/
def raceA1 : RLStep := rlPhase1 59001 raceWindow0

/-- Caller B runs the prologue at time 59002 while A is suspended: B sees
the same full window and the same oldest timestamp and also suspends until
time 60000. -/
def raceB1 : RLStep := rlPhase1 59002 raceA1.window

/-- Caller A resumes at time 60000: one shift, one push. -/
def raceA2 : RLStep := rlPhase2 60000 raceB1.window

/-- Caller B resumes at time 60000: one shift, one push, with no re-test of
the limit. -/
def raceB2 : RLStep := rlPhase2 60000 raceA2.window

/-- Full admission history of the interleaving: the sixty prior admissions
followed by the admissions of A and of B. -/
def raceHistory : List Nat :=
  raceWindow0 ++ raceA2.admittedAt.toList ++ raceB2.admittedAt.toList

/-- State of the module-level browser singleton: the browserInstance
variable and the number of puppeteer launch calls started so far. -/
structure LaunchState where
  browserHandle : Option Nat
  launchCount : Nat
  deriving DecidableEq

/-- Outcome of the synchronous prologue of getBrowser: either the caller
found browserInstance set and returns it at once, or it found null, started
a launch and suspended on the await. -/
inductive GbPhase1Result where
  | launching (st : LaunchState)
  | returned (handle : Nat) (st : LaunchState)
  deriving DecidableEq

/-- State carried by a getBrowser prologue outcome. -/
def GbPhase1Result.state : GbPhase1Result → LaunchState
  | .launching st => st
  | .returned _ st => st

/-- Synchronous prologue of getBrowser: test browserInstance; when null,
begin a puppeteer launch and suspend on its await; the shared variable is
still null while the launch is in flight. -/
def gbPhase1 (st : LaunchState) : GbPhase1Result :=
  match st.browserHandle with
  | none => GbPhase1Result.launching { st with launchCount := st.launchCount + 1 }
  | some h => GbPhase1Result.returned h st

/-- Resumption of getBrowser when its launch resolves with a fresh handle:
assign browserInstance and return it (the remainder of the source body is
synchronous). -/
def gbPhase2 (newHandle : Nat) (st : LaunchState) : Nat × LaunchState :=
  (newHandle, { st with browserHandle := some newHandle })

/-- Initial state: no browser, no launches. -/
def gbS0 : LaunchState := { browserHandle := none, launchCount := 0 }

/-- Caller A enters getBrowser first. -/
def gbA1 : GbPhase1Result := gbPhase1 gbS0

/-- Caller B enters getBrowser while A's launch is still in flight. -/
def gbB1 : GbPhase1Result := gbPhase1 gbA1.state

/-- A's launch resolves with handle 1. -/
def gbA2 : Nat × LaunchState := gbPhase2 1 gbB1.state

/-- B's launch resolves with handle 2. -/
def gbB2 : Nat × LaunchState := gbPhase2 2 gbA2.2

/-- State of the browser manager seen by closeBrowser: the singleton
instance and the pending idle timer. -/
structure CloseState where
  browserHandle : Option Nat
  idleTimerId : Option Nat
  deriving DecidableEq

/-- Lifecycle events emitted on the browserEvents channel. -/
inductive BrowserEventM where
  | closed (reason : String)
  deriving DecidableEq

/-- Model of closeBrowser(reason): always clear the idle timer; when an
instance exists, close it, null the variable and emit the closed
inactivity event exactly when the reason is the string inactivity. -/
def closeBrowser (reason : String) (st : CloseState) : CloseState × List BrowserEventM :=
  let st1 : CloseState := { st with idleTimerId := none }
  match st1.browserHandle with
  | none => (st1, [])
  | some _ =>
    ({ st1 with browserHandle := none },
      if reason = "inactivity" then [BrowserEventM.closed "inactivity"] else [])

/-- Result of the cheerio queries the module issues against one fetched
page, in document order where a query selects many elements.  A fieldholds
exactly what the corresponding query returns on the page; an absent
attribute is none. -/
structure Doc where
  titleText : String
  h1FirstText : String
  htmLinkHrefs : List (Option String)
  titleMainText : String
  priceFirstText : String
  pdDescriptionText : String
  metaDescription : Option String
  pdAvailabilityText : String
  jsPartAvailabilityText : String
  pdMainImageSrc : Option String
  jsMainImageSrc : Option String
  ogImageContent : Option String
  repairStepTexts : List String
  videoHrefs : List (Option String)
  symptomTexts : List String
  crossRefText : String
  fullText : String
  helpTipTexts : List String
  partSuggestionItems : List (String × String)
  deriving DecidableEq

/-- Page on which every query comes back empty. -/
def emptyDoc : Doc :=
  { titleText := "", h1FirstText := "", htmLinkHrefs := [], titleMainText := "",
    priceFirstText := "", pdDescriptionText := "", metaDescription := none,
    pdAvailabilityText := "", jsPartAvailabilityText := "", pdMainImageSrc := none,
    jsMainImageSrc := none, ogImageContent := none, repairStepTexts := [],
    videoHrefs := [], symptomTexts := [], crossRefText := "", fullText := "",
    helpTipTexts := [], partSuggestionItems := [] }

/-- Outcome of navigating the search endpoint: the URL after redirects and
the loaded page. -/
structure NavOutcome where
  finalUrl : String
  doc : Doc
  deriving DecidableEq

/-- Resolution result url and method as built by the strategies. -/
structure ResolutionInfo where
  url : String
  method : String
  deriving DecidableEq

/-- Outcomes of the three regex probes findPartSelectUrlViaDDG runs on the
search-engine response body: the decoded capture of the encoded-redirect
pattern, the direct URL pattern match, and the matches of the last-resort
pattern. -/
structure DdgPage where
  encodedMatchDecoded : Option String
  directMatch : Option String
  fallbackMatches : List String
  deriving DecidableEq

/-- Response of the search-engine fetch. -/
structure DdgResponse where
  ok : Bool
  page : DdgPage
  deriving DecidableEq

/-- External world of one run: navigation outcome of the site search for
an identifier, search-engine response for an identifier, and rendered page
per URL, each possibly raising. -/
structure Env where
  psNav : String → Except String NavOutcome
  ddg : String → Except String DdgResponse
  fetchPage : String → Except String Doc

/-- Primary strategy findPartSelectUrlViaSearch: navigate the site search,
accept when the landed URL looks like a detail page containing the
identifier, else fail on an error title, else accept on a heading
containing the identifier, else take the first results-page link
containing it; any exception in the try block yields null. -/
def findPartSelectUrlViaSearch (nav : Except String NavOutcome) (partNumber : String) :
    Option ResolutionInfo :=
  match nav with
  | .error _ => none
  | .ok o =>
    let finalUrl := o.finalUrl
    if strContainsB finalUrl ".htm" && strContainsB (jsUpper finalUrl) (jsUpper partNumber) then
      some { url := finalUrl, method := "ps-search" }
    else
      let pageTitle := jsLower (jsTrim o.doc.titleText)
      let h1Text := jsTrim o.doc.h1FirstText
      if strContainsB pageTitle "error" || strContainsB pageTitle "not found" ||
          strContainsB pageTitle "page not found" then
        none
      else if strContainsB (jsUpper h1Text) (jsUpper partNumber) then
        some { url := finalUrl, method := "ps-search" }
      else
        match (o.doc.htmLinkHrefs.filterMap id).find?
            (fun h => (h != "") && strContainsB (jsUpper h) (jsUpper partNumber)) with
        | some href =>
          some { url := if jsStartsWith href "http" then href else BASE_URL ++ href,
                 method := "ps-search" }
        | none => none

/-- Fallback strategy findPartSelectUrlViaDDG: fetch the search engine; on
a non-ok response or any exception return null; else take the decoded
encoded-redirect capture when it points at the target site, else the
direct pattern match, else the first last-resort match. -/
def findPartSelectUrlViaDDG (ddg : Except String DdgResponse) : Option ResolutionInfo :=
  match ddg with
  | .error _ => none
  | .ok resp =>
    if !resp.ok then none
    else
      let step1 : Option ResolutionInfo :=
        match resp.page.encodedMatchDecoded with
        | some decoded =>
          if strContainsB decoded "partselect.com" then
            some { url := decoded, method := "ddg" }
          else none
        | none => none
      match step1 with
      | some r => some r
      | none =>
        match resp.page.directMatch with
        | some m => some { url := m, method := "ddg" }
        | none =>
          match resp.page.fallbackMatches with
          | m :: _ => some { url := m, method := "ddg" }
          | [] => none

/-- Chain of the two strategies inside searchPart: site search first, the
search-engine fallback only when it returned null. -/
def resolveUrl (env : Env) (pn : String) : Option ResolutionInfo :=
  match findPartSelectUrlViaSearch (env.psNav pn) pn with
  | some r => some r
  | none => findPartSelectUrlViaDDG (env.ddg pn)

/-- Record built by extractPartDetails. -/
structure ExtractedPart where
  partNumber : String
  title : String
  price : String
  description : String
  inStock : Bool
  imageUrl : String
  installationSteps : List String
  videos : List String
  symptoms : List String
  compatibilityNote : String
  deriving DecidableEq

/-- Pure extraction extractPartDetails over the loaded page: per-field
fallback selector chains, trims where the source trims, stock flag from
two regions, absolute rewrite of a relative image URL, and the caps 500,
10, 3 and 10. -/
def extractPartDetails (doc : Doc) (partNumber : String) : ExtractedPart :=
  let title := jsOr (jsTrim doc.titleMainText) (jsTrim doc.h1FirstText)
  let price := jsTrim doc.priceFirstText
  let description := jsOr (jsTrim doc.pdDescriptionText) (jsOrO doc.metaDescription "")
  let inStock := strContainsB (jsLower doc.pdAvailabilityText) "in stock" ||
    strContainsB (jsLower doc.jsPartAvailabilityText) "in stock"
  let imageUrl0 := jsOrO doc.pdMainImageSrc (jsOrO doc.jsMainImageSrc (jsOrO doc.ogImageContent ""))
  let imageUrl := if imageUrl0 != "" && !(jsStartsWith imageUrl0 "http") then
    "https://www.partselect.com" ++ imageUrl0 else imageUrl0
  let installationSteps := (doc.repairStepTexts.map jsTrim).filter (fun st => st != "")
  let videos := doc.videoHrefs.filterMap (fun h =>
    match h with
    | some href => if href != "" then some href else none
    | none => none)
  let symptoms := doc.symptomTexts.map jsTrim
  let compatibilityNote := jsTrim doc.crossRefText
  { partNumber := partNumber, title := title, price := price,
    description := jsSubstring description 500,
    inStock := inStock, imageUrl := imageUrl,
    installationSteps := installationSteps.take 10,
    videos := videos.take 3,
    symptoms := symptoms.take 10,
    compatibilityNote := compatibilityNote }

/-- Part record returned by a successful searchPart: the extracted fields
with the source method and URL attached. -/
structure FullPartRecord where
  part : ExtractedPart
  sourceMethod : String
  url : String
  deriving DecidableEq

/-- Return shape of searchPart: a populated record or the uniform error
record. -/
inductive SearchResult where
  | ok (record : FullPartRecord)
  | err (error : String)
  deriving DecidableEq

/-- Source method of a search result when it is a record. -/
def SearchResult.methodOf : SearchResult → Option String
  | .ok r => some r.sourceMethod
  | .err _ => none

/-- Try block of searchPart: resolve, fetch the resolved URL (this fetch
may raise), extract and attach method and URL; a failed resolution yields
the no-results error record. -/
def searchPartBody (env : Env) (pn : String) : Except String SearchResult :=
  match resolveUrl env pn with
  | some r =>
    match env.fetchPage r.url with
    | .error e => .error e
    | .ok doc =>
      .ok (SearchResult.ok { part := extractPartDetails doc pn,
                             sourceMethod := r.method, url := r.url })
  | none => .ok (SearchResult.err ("No results found for part number: " ++ pn))

/-- Public searchPart: the try block with the catch-all that converts any
exception into the uniform error record. -/
def searchPart (env : Env) (pn : String) : SearchResult :=
  match searchPartBody env pn with
  | .ok r => r
  | .error e => SearchResult.err ("Failed to search for part: " ++ e)

/-- Record returned by a successful checkCompatibility. -/
structure CompatRecord where
  partNumber : String
  modelNumber : String
  modelName : String
  isCompatible : Bool
  partInfo : Option FullPartRecord
  message : String
  deriving DecidableEq

/-- Return shape of checkCompatibility: the populated record or the catch
branch record carrying an error string and a guidance message. -/
inductive CompatResult where
  | ok (record : CompatRecord)
  | err (partNumber modelNumber error message : String)
  deriving DecidableEq

/-- Compatibility flag of a compatibility result when it is a record. -/
def CompatResult.isCompatibleOf : CompatResult → Option Bool
  | .ok r => some r.isCompatible
  | .err _ _ _ _ => none

/-- Model listing URL built by checkCompatibility. -/
def modelPageUrl (modelNumber : String) : String :=
  BASE_URL ++ "/Models/" ++ encodeURIComponentM modelNumber ++ "/"

/-- Public checkCompatibility: fetch the model listing, read the heading,
test lowercased containment of the identifier in the full page text, run
searchPart for supplementary detail, and compose the message; a fetch
exception lands in the catch branch. -/
def checkCompatibility (env : Env) (pn mn : String) : CompatResult :=
  match env.fetchPage (modelPageUrl mn) with
  | .error e =>
    CompatResult.err pn mn ("Failed to check compatibility: " ++ e)
      "Unable to verify compatibility. Please check PartSelect.com directly."
  | .ok doc =>
    let modelName := jsTrim doc.h1FirstText
    let pageText := jsLower doc.fullText
    let partNumLower := jsLower pn
    let isCompatible := strContainsB pageText partNumLower
    let partInfo := searchPart env pn
    CompatResult.ok
      { partNumber := pn, modelNumber := mn, modelName := modelName,
        isCompatible := isCompatible,
        partInfo := match partInfo with
          | SearchResult.err _ => none
          | SearchResult.ok r => some r,
        message := if isCompatible then
            "Part " ++ pn ++ " appears to be compatible with model " ++ mn ++ "."
          else
            "Could not confirm compatibility between " ++ pn ++ " and " ++ mn ++
              ". Check PartSelect.com directly." }

/-- Record returned by getTroubleshootingInfo. -/
structure TroubleRecord where
  appliance : String
  symptom : String
  tips : List String
  suggestedParts : List (String × String)
  message : String
  deriving DecidableEq

/-- Repair-help URL built by getTroubleshootingInfo. -/
def troubleUrl (appliance symptom : String) : String :=
  BASE_URL ++ "/Repair/Help/" ++ encodeURIComponentM (collapseWs (appliance ++ " " ++ symptom)) ++ "/"

/-- Advisory message of the fetch-failure branch. -/
def troubleFailMsg : String :=
  "Could not fetch specific troubleshooting data. Will provide general guidance."

/-- Public getTroubleshootingInfo: fetch the slugged help page; a fetch
failure short-circuits to the empty advisory; on success keep trimmed tip
texts longer than twenty characters capped to five, and name or number
pairs of the first five suggestion elements. -/
def getTroubleshootingInfo (env : Env) (appliance symptom : String) : TroubleRecord :=
  match env.fetchPage (troubleUrl appliance symptom) with
  | .error _ =>
    { appliance := appliance, symptom := symptom, tips := [], suggestedParts := [],
      message := troubleFailMsg }
  | .ok doc =>
    let tips := (doc.helpTipTexts.map jsTrim).filter
      (fun t => (t != "") && decide (20 < t.data.length))
    let suggestedParts := (doc.partSuggestionItems.take 5).filterMap (fun p =>
      let partName := jsTrim p.1
      let partNum := jsTrim p.2
      if (partName != "") || (partNum != "") then some (partName, partNum) else none)
    { appliance := appliance, symptom := symptom,
      tips := tips.take 5,
      suggestedParts := suggestedParts,
      message := if tips.length > 0 then
          "Found troubleshooting information for " ++ appliance ++ " " ++ symptom ++ "."
        else
          "Limited troubleshooting info available. Common causes and solutions will be provided." }

/-- Head of a dropWhile result never satisfies the dropped predicate. -/
theorem headDropWhileFalse (p : Char → Bool) (l : List Char) (c : Char)
    (h : c ∈ (l.dropWhile p).head?) : p c = false := by
  induction l with
  | nil => simp [List.dropWhile] at h
  | cons a t ih =>
    rw [List.dropWhile_cons] at h
    by_cases hp : p a
    · rw [if_pos hp] at h; exact ih h
    · rw [if_neg hp] at h; simp at h; subst h; simpa using hp

/-- Boolean test that a string carries no leading and no trailing
whitespace, the observable meaning of being trimmed. -/
def wsFreeEdgesB (s : String) : Bool :=
  (match s.data.head? with | some c => !c.isWhitespace | none => true) &&
  (match s.data.getLast? with | some c => !c.isWhitespace | none => true)

/-- Trimming always yields a string with whitespace-free edges. -/
theorem wsFreeEdgesB_jsTrim (s : String) : wsFreeEdgesB (jsTrim s) = true := by
  unfold wsFreeEdgesB jsTrim
  set A := s.data.dropWhile Char.isWhitespace with hA
  set Y := A.reverse.dropWhile Char.isWhitespace with hY
  simp only [List.head?_reverse, List.getLast?_reverse]
  rw [Bool.and_eq_true]
  constructor
  · cases hYl : Y.getLast? with
    | none => rfl
    | some c =>
      obtain ⟨t, ht⟩ := List.dropWhile_suffix (l := A.reverse) Char.isWhitespace
      rw [← hY] at ht
      have hYne : Y ≠ [] := by
        intro he
        rw [he] at hYl
        simp at hYl
      have h2 : (t ++ Y).getLast? = Y.getLast? := by
        rw [List.getLast?_append]
        cases hyy : Y.getLast? with
        | none => exact absurd (List.getLast?_eq_none_iff.mp hyy) hYne
        | some d => rfl
      rw [ht, List.getLast?_reverse, hYl] at h2
      have hmem : c ∈ A.head? := by rw [h2]; simp
      have h3 := headDropWhileFalse Char.isWhitespace s.data c hmem
      simp [h3]
  · cases hYh : Y.head? with
    | none => rfl
    | some c =>
      have hmem : c ∈ Y.head? := by rw [hYh]; simp
      have h3 := headDropWhileFalse Char.isWhitespace A.reverse c hmem
      simp [h3]

/-- Suffix gives containment for the executable infix test. -/
theorem listInfixB_of_append (a b : List Char) : listInfixB b (a ++ b) = true := by
  induction a with
  | nil =>
    cases b with
    | nil => rfl
    | cons c t =>
      simp only [List.nil_append, listInfixB, Bool.or_eq_true]
      exact Or.inl (List.isPrefixOf_iff_prefix.mpr (List.prefix_refl _))
  | cons c t ih =>
    simp only [List.cons_append, listInfixB, Bool.or_eq_true]
    exact Or.inr ih

/-- Containment of the right part of an append. -/
theorem strContainsB_append (a b : String) : strContainsB (a ++ b) b = true := by
  unfold strContainsB
  rw [String.data_append]
  exact listInfixB_of_append a.data b.data

/-- C1: two callers that suspend on a full window at the same time both
shift once and push on resumption without re-testing the limit, so the
admission history of the interleaving places 61 admissions inside one
trailing window of RATE_WINDOW_MS, exceeding the limit of 60; the theorem
also exhibits the suspension of the over-limit callers until the oldest
recorded admission leaves the window. -/
theorem rateLimiterOverAdmissionRace :
    raceA1.wakeAt = some 60000 ∧ raceB1.wakeAt = some 60000 ∧
    raceA2.admittedAt = some 60000 ∧ raceB2.admittedAt = some 60000 ∧
    admissionsInWindow raceHistory 60000 = 61 ∧
    RATE_LIMIT < admissionsInWindow raceHistory 60000 := by decide

/-- C9: a second getBrowser caller that arrives while the first launch is
in flight still sees a null browserInstance and starts a second launch;
the interleaving performs two launches and the two callers end up holding
distinct handles, contradicting the single-shared-handle claim. -/
theorem getBrowserDoubleLaunchRace :
    gbA1 = GbPhase1Result.launching { browserHandle := none, launchCount := 1 } ∧
    gbB1 = GbPhase1Result.launching { browserHandle := none, launchCount := 2 } ∧
    gbB1.state.launchCount = 2 ∧
    gbA2.1 = 1 ∧ gbB2.1 = 2 ∧ gbA2.1 ≠ gbB2.1 := by decide

/-- C10: closeBrowser emits the closed inactivity event exactly when an
instance existed and the reason is inactivity; it always clears the idle
timer and nulls the instance, and with no instance it emits nothing for
every reason. -/
theorem closeBrowserEventContract (reason : String) (st : CloseState) :
    ((closeBrowser reason st).2 = [BrowserEventM.closed "inactivity"] ↔
      st.browserHandle.isSome = true ∧ reason = "inactivity") ∧
    (closeBrowser reason st).1.idleTimerId = none ∧
    (closeBrowser reason st).1.browserHandle = none ∧
    (st.browserHandle = none → (closeBrowser reason st).2 = []) := by
  obtain ⟨bh, it⟩ := st
  cases bh <;> by_cases hr : reason = "inactivity" <;>
    simp [closeBrowser, hr]

/-- C10 witness: with a live instance and reason inactivity the event is
emitted. -/
theorem closeBrowserEventContractWitness :
    (closeBrowser "inactivity" { browserHandle := some 7, idleTimerId := some 3 }).2 =
      [BrowserEventM.closed "inactivity"] :=
  (closeBrowserEventContract "inactivity"
    { browserHandle := some 7, idleTimerId := some 3 }).1.mpr ⟨rfl, rfl⟩

/-- C2: when both strategies return null, searchPart returns the uniform
error record whose error string extends the identifier, and the catch-all
converts any exception of the try block into the uniform error record, so
the operation never throws. -/
theorem searchPartBothStrategiesFail (env : Env) (pn : String)
    (h1 : findPartSelectUrlViaSearch (env.psNav pn) pn = none)
    (h2 : findPartSelectUrlViaDDG (env.ddg pn) = none) :
    searchPart env pn = SearchResult.err ("No results found for part number: " ++ pn) ∧
    strContainsB ("No results found for part number: " ++ pn) pn = true ∧
    (∀ (env2 : Env) (pn2 e : String), searchPartBody env2 pn2 = Except.error e →
      searchPart env2 pn2 = SearchResult.err ("Failed to search for part: " ++ e)) := by
  refine ⟨?_, strContainsB_append _ _, ?_⟩
  · unfold searchPart searchPartBody resolveUrl
    rw [h1, h2]
  · intro env2 pn2 e he
    unfold searchPart
    rw [he]

/-- Environment in which every external fetch raises. -/
def failEnv : Env :=
  { psNav := fun _ => .error "nav failed",
    ddg := fun _ => .error "ddg failed",
    fetchPage := fun _ => .error "fetch failed" }

/-- C2 witness: on an environment where both strategies fail, searchPart
returns the no-results error record for the requested identifier. -/
theorem searchPartBothStrategiesFailWitness :
    searchPart failEnv "PS123" =
      SearchResult.err ("No results found for part number: " ++ "PS123") :=
  (searchPartBothStrategiesFail failEnv "PS123" rfl rfl).1

/-- C3: the chain runs the site search first; when it returns a result the
chain result is that result, and the whole searchPart run is unchanged
under any replacement of the search-engine component, so the fallback is
never consulted. -/
theorem searchPartPrimaryShortCircuit (env : Env) (pn : String) (r : ResolutionInfo)
    (h : findPartSelectUrlViaSearch (env.psNav pn) pn = some r) :
    resolveUrl env pn = some r ∧
    ∀ ddg2 : String → Except String DdgResponse,
      searchPart { env with ddg := ddg2 } pn = searchPart env pn := by
  have hr : resolveUrl env pn = some r := by
    unfold resolveUrl
    rw [h]
  refine ⟨hr, fun ddg2 => ?_⟩
  have hr2 : resolveUrl { env with ddg := ddg2 } pn = some r := by
    unfold resolveUrl
    rw [show ({ env with ddg := ddg2 } : Env).psNav = env.psNav from rfl, h]
  unfold searchPart searchPartBody
  rw [hr, hr2]

/-- Environment whose site search lands directly on a detail page URL. -/
def c3Env : Env :=
  { psNav := fun _ =>
      .ok { finalUrl := "https://www.partselect.com/PS11752778-Pump.htm", doc := emptyDoc },
    ddg := fun _ => .error "unused",
    fetchPage := fun _ => .ok emptyDoc }

/-- C3 witness: with the primary strategy succeeding on the landed URL the
chain yields the primary result. -/
theorem searchPartPrimaryShortCircuitWitness :
    resolveUrl c3Env "PS11752778" =
      some { url := "https://www.partselect.com/PS11752778-Pump.htm", method := "ps-search" } :=
  (searchPartPrimaryShortCircuit c3Env "PS11752778"
    { url := "https://www.partselect.com/PS11752778-Pump.htm", method := "ps-search" }
    (by decide)).1

/-- Page whose only non-empty query result is a meta description with
surrounding whitespace. -/
def c4Doc : Doc := { emptyDoc with metaDescription := some " x " }

/-- C4 counterexample: the description taken from the meta-description
fallback is used verbatim, so the returned record carries an untrimmed
string field, refuting the trimmedness part of the claim. -/
theorem extractUntrimmedDescription :
    (extractPartDetails c4Doc "PS1").description = " x " ∧
    wsFreeEdgesB (extractPartDetails c4Doc "PS1").description = false := by decide

/-- C4 amended: extraction is total with every field defined; the record
always satisfies the caps (description at most 500 characters, at most 10
installation steps, 3 videos, 10 symptoms); the title, price and
compatibility-note fields pass through trim; and when no selector rule
matches any field the record is all defaults with inStock false.  The
description taken from the meta-description fallback and the image URL
are used verbatim, not trimmed. -/
theorem extractPartDetailsShape (doc : Doc) (pn : String) :
    (extractPartDetails doc pn).description.data.length ≤ 500 ∧
    (extractPartDetails doc pn).installationSteps.length ≤ 10 ∧
    (extractPartDetails doc pn).videos.length ≤ 3 ∧
    (extractPartDetails doc pn).symptoms.length ≤ 10 ∧
    wsFreeEdgesB (extractPartDetails doc pn).title = true ∧
    wsFreeEdgesB (extractPartDetails doc pn).price = true ∧
    wsFreeEdgesB (extractPartDetails doc pn).compatibilityNote = true ∧
    (extractPartDetails doc pn).partNumber = pn ∧
    (doc.titleMainText = "" → doc.h1FirstText = "" → doc.priceFirstText = "" →
     doc.pdDescriptionText = "" → doc.metaDescription = none →
     doc.pdAvailabilityText = "" → doc.jsPartAvailabilityText = "" →
     doc.pdMainImageSrc = none → doc.jsMainImageSrc = none → doc.ogImageContent = none →
     doc.repairStepTexts = [] → doc.videoHrefs = [] → doc.symptomTexts = [] →
     doc.crossRefText = "" →
     extractPartDetails doc pn =
       { partNumber := pn, title := "", price := "", description := "", inStock := false,
         imageUrl := "", installationSteps := [], videos := [], symptoms := [],
         compatibilityNote := "" }) := by
  refine ⟨?_, ?_, ?_, ?_, ?_, ?_, ?_, rfl, ?_⟩
  · exact List.length_take_le 500 _
  · exact List.length_take_le 10 _
  · exact List.length_take_le 3 _
  · exact List.length_take_le 10 _
  · show wsFreeEdgesB (jsOr (jsTrim doc.titleMainText) (jsTrim doc.h1FirstText)) = true
    unfold jsOr
    split
    · exact wsFreeEdgesB_jsTrim _
    · exact wsFreeEdgesB_jsTrim _
  · exact wsFreeEdgesB_jsTrim _
  · exact wsFreeEdgesB_jsTrim _
  · intro h1 h2 h3 h4 h5 h6 h7 h8 h9 h10 h11 h12 h13 h14
    obtain ⟨f1, f2, f3, f4, f5, f6, f7, f8, f9, f10, f11, f12, f13, f14, f15, f16, f17,
      f18, f19⟩ := doc
    simp only at h1 h2 h3 h4 h5 h6 h7 h8 h9 h10 h11 h12 h13 h14
    subst h1 h2 h3 h4 h5 h6 h7 h8 h9 h10 h11 h12 h13 h14
    rfl

/-- C4 witness: on the all-empty page the record is all defaults. -/
theorem extractPartDetailsShapeWitness :
    extractPartDetails emptyDoc "PS77" =
      { partNumber := "PS77", title := "", price := "", description := "", inStock := false,
        imageUrl := "", installationSteps := [], videos := [], symptoms := [],
        compatibilityNote := "" } :=
  (extractPartDetailsShape emptyDoc "PS77").2.2.2.2.2.2.2.2
    rfl rfl rfl rfl rfl rfl rfl rfl rfl rfl rfl rfl rfl rfl

/-- Page whose heading carries the identifier so the primary strategy
succeeds via the heading check. -/
def c5Doc : Doc := { emptyDoc with h1FirstText := "PartSelect Number PS11752778 Drain Pump" }

/-- Environment where the site search lands on a page whose heading
carries the identifier and the subsequent detail fetch succeeds. -/
def c5Env : Env :=
  { psNav := fun _ => .ok { finalUrl := "https://www.partselect.com/search", doc := c5Doc },
    ddg := fun _ => .error "unused",
    fetchPage := fun _ => .ok emptyDoc }

/-- C5 counterexample: a searchPart run that succeeds via the primary
strategy carries the source label ps-search, not the literal string
primary claimed by the specification. -/
theorem searchPartMethodNotPrimaryLiteral :
    SearchResult.methodOf (searchPart c5Env "PS11752778") = some "ps-search" ∧
    SearchResult.methodOf (searchPart c5Env "PS11752778") ≠ some "primary" := by decide

/-- Helper: every result of the primary strategy carries method
ps-search. -/
theorem viaSearchMethodEq (nav : Except String NavOutcome) (pn : String) (r : ResolutionInfo)
    (h : findPartSelectUrlViaSearch nav pn = some r) : r.method = "ps-search" := by
  unfold findPartSelectUrlViaSearch at h
  cases nav with
  | error e => simp at h
  | ok o =>
    simp only at h
    split at h
    · injection h with h1
      rw [← h1]
    · split at h
      · simp at h
      · split at h
        · injection h with h1
          rw [← h1]
        · split at h
          · injection h with h1
            rw [← h1]
          · simp at h

/-- Helper: every result of the fallback strategy carries method ddg. -/
theorem viaDDGMethodEq (d : Except String DdgResponse) (r : ResolutionInfo)
    (h : findPartSelectUrlViaDDG d = some r) : r.method = "ddg" := by
  unfold findPartSelectUrlViaDDG at h
  cases d with
  | error e => simp at h
  | ok resp =>
    simp only at h
    split at h
    · simp at h
    · split at h
      · next r0 heq =>
        split at heq
        · next decoded hsome =>
          split at heq
          · injection heq with h1
            injection h with h2
            rw [← h2, ← h1]
          · simp at heq
        · simp at heq
      · split at h
        · injection h with h1
          rw [← h1]
        · split at h
          · injection h with h1
            rw [← h1]
          · simp at h

/-- C5 amended: when the primary strategy succeeds and the detail fetch
succeeds, searchPart returns a record whose sourceMethod is the primary
strategy label ps-search and whose partNumber is the input identifier;
the method labels produced by the two strategies are exactly ps-search
and ddg. -/
theorem searchPartPrimaryMethodLabel (env : Env) (pn : String) (r : ResolutionInfo) (doc : Doc)
    (h : findPartSelectUrlViaSearch (env.psNav pn) pn = some r)
    (hf : env.fetchPage r.url = Except.ok doc) :
    r.method = "ps-search" ∧
    searchPart env pn =
      SearchResult.ok { part := extractPartDetails doc pn, sourceMethod := "ps-search",
                        url := r.url } ∧
    (extractPartDetails doc pn).partNumber = pn ∧
    (∀ (d : Except String DdgResponse) (r2 : ResolutionInfo),
      findPartSelectUrlViaDDG d = some r2 → r2.method = "ddg") := by
  have hm := viaSearchMethodEq (env.psNav pn) pn r h
  refine ⟨hm, ?_, rfl, fun d r2 hd => viaDDGMethodEq d r2 hd⟩
  simp only [searchPart, searchPartBody, resolveUrl, h, hf, hm]

/-- C5 witness: the amended claim at the heading-success environment. -/
theorem searchPartPrimaryMethodLabelWitness :
    searchPart c5Env "PS11752778" =
      SearchResult.ok { part := extractPartDetails emptyDoc "PS11752778",
                        sourceMethod := "ps-search",
                        url := "https://www.partselect.com/search" } :=
  (searchPartPrimaryMethodLabel c5Env "PS11752778"
    { url := "https://www.partselect.com/search", method := "ps-search" }
    emptyDoc (by decide) rfl).2.1

/-- Landed page whose title signals an error while the landed URL also
matches the detail-page pattern. -/
def c6Doc : Doc :=
  { emptyDoc with
    titleText := "Error - Page Not Found",
    htmLinkHrefs := [some "/Other-PS123.htm"] }

/-- Navigation outcome carrying an error title on a detail-page URL. -/
def c6Nav : NavOutcome :=
  { finalUrl := "https://www.partselect.com/PS123.htm", doc := c6Doc }

/-- C6 counterexample: the landed page title contains error, yet the
strategy does not return null because the URL check runs first and
succeeds, refuting the unconditional form of the claim. -/
theorem viaSearchErrorTitleStillResolves :
    strContainsB (jsLower (jsTrim c6Nav.doc.titleText)) "error" = true ∧
    findPartSelectUrlViaSearch (Except.ok c6Nav) "PS123" =
      some { url := "https://www.partselect.com/PS123.htm", method := "ps-search" } := by decide

/-- C6 amended: when the landed-URL check fails and the title contains
error or not found, the primary strategy returns null whatever the heading
and whatever links the page carries. -/
theorem viaSearchErrorTitleReturnsNone (o : NavOutcome) (pn : String)
    (hurl : (strContainsB o.finalUrl ".htm" &&
      strContainsB (jsUpper o.finalUrl) (jsUpper pn)) = false)
    (hterr : strContainsB (jsLower (jsTrim o.doc.titleText)) "error" = true ∨
      strContainsB (jsLower (jsTrim o.doc.titleText)) "not found" = true) :
    findPartSelectUrlViaSearch (Except.ok o) pn = none := by
  unfold findPartSelectUrlViaSearch
  simp only [hurl, Bool.false_eq_true, if_false]
  rcases hterr with ht | ht <;> simp [ht]

/-- Landed page for the C6 witness: a non-detail URL and a not-found
title, with a heading and a link that do carry the identifier. -/
def c6wDoc : Doc :=
  { emptyDoc with
    titleText := "404 Not Found",
    h1FirstText := "PS1",
    htmLinkHrefs := [some "/PS1.htm"] }

/-- Navigation outcome for the C6 witness. -/
def c6wNav : NavOutcome :=
  { finalUrl := "https://www.partselect.com/Error", doc := c6wDoc }

/-- C6 witness: the amended claim at the not-found landed page. -/
theorem viaSearchErrorTitleReturnsNoneWitness :
    findPartSelectUrlViaSearch (Except.ok c6wNav) "PS1" = none :=
  viaSearchErrorTitleReturnsNone c6wNav "PS1" (by decide) (Or.inr (by decide))

/-- C7: on a successful model-page fetch, the compatibility flag is
exactly lowercased containment of the identifier in the full page text;
when the flag is false the message advises checking the site directly;
and the supplementary partInfo is null exactly when the searchPart
sub-call returned an error record. -/
theorem checkCompatibilityContract (env : Env) (pn mn : String) (doc : Doc)
    (hf : env.fetchPage (modelPageUrl mn) = Except.ok doc) :
    ∃ record, checkCompatibility env pn mn = CompatResult.ok record ∧
      record.isCompatible = strContainsB (jsLower doc.fullText) (jsLower pn) ∧
      (record.isCompatible = false →
        record.message = "Could not confirm compatibility between " ++ pn ++ " and " ++ mn ++
          ". Check PartSelect.com directly.") ∧
      (record.partInfo = none ↔ ∃ e, searchPart env pn = SearchResult.err e) := by
  unfold checkCompatibility
  rw [hf]
  refine ⟨_, rfl, rfl, ?_, ?_⟩
  · intro hfalse
    simp only at hfalse ⊢
    rw [hfalse]
    simp
  · simp only
    cases hsp : searchPart env pn with
    | ok r => simp
    | err e => simp

/-- Model page for the C7 witness: heading and full text of a model page
that does not mention the identifier. -/
def c7Doc : Doc :=
  { emptyDoc with
    h1FirstText := "ABC1 Dishwasher",
    fullText := "Whirlpool Dishwasher Model ABC1 Parts" }

/-- Environment for the C7 witness: the model page fetch succeeds and
both resolution strategies fail. -/
def c7Env : Env :=
  { psNav := fun _ => .error "down",
    ddg := fun _ => .error "down",
    fetchPage := fun _ => .ok c7Doc }

/-- C7 witness: on a model page not containing the identifier the flag is
false. -/
theorem checkCompatibilityContractWitness :
    CompatResult.isCompatibleOf (checkCompatibility c7Env "PS123" "ABC1") = some false := by
  obtain ⟨record, he, hsig, hmsg, hpi⟩ :=
    checkCompatibilityContract c7Env "PS123" "ABC1" c7Doc rfl
  rw [he]
  simp only [CompatResult.isCompatibleOf, Option.some_inj]
  rw [hsig]
  decide

/-- C8: a failed help-page fetch short-circuits to the empty advisory
whose message contains general guidance and echoes both inputs; a
successful fetch yields at most five tips, each longer than twenty
characters, and at most five suggested parts, and the operation never
raises since it is a total function into the record type. -/
theorem getTroubleshootingContract (env : Env) (a s : String) :
    (∀ e, env.fetchPage (troubleUrl a s) = Except.error e →
      getTroubleshootingInfo env a s =
        { appliance := a, symptom := s, tips := [], suggestedParts := [],
          message := troubleFailMsg } ∧
      strContainsB troubleFailMsg "general guidance" = true) ∧
    (∀ doc, env.fetchPage (troubleUrl a s) = Except.ok doc →
      (getTroubleshootingInfo env a s).tips.length ≤ 5 ∧
      (∀ t ∈ (getTroubleshootingInfo env a s).tips, 20 < t.data.length) ∧
      (getTroubleshootingInfo env a s).suggestedParts.length ≤ 5 ∧
      (getTroubleshootingInfo env a s).appliance = a ∧
      (getTroubleshootingInfo env a s).symptom = s) := by
  constructor
  · intro e he
    unfold getTroubleshootingInfo
    rw [he]
    exact ⟨rfl, by decide⟩
  · intro doc hd
    unfold getTroubleshootingInfo
    rw [hd]
    refine ⟨List.length_take_le 5 _, ?_, ?_, rfl, rfl⟩
    · intro t ht
      have hmem := List.mem_of_mem_take ht
      have hfil := (List.mem_filter.mp hmem).2
      rw [Bool.and_eq_true] at hfil
      exact of_decide_eq_true hfil.2
    · calc ((doc.partSuggestionItems.take 5).filterMap _).length
          ≤ (doc.partSuggestionItems.take 5).length := List.length_filterMap_le _ _
        _ ≤ 5 := List.length_take_le 5 _

/-- Environment for the C8 witness: the help-page fetch raises. -/
def c8Env : Env :=
  { psNav := fun _ => .error "x",
    ddg := fun _ => .error "x",
    fetchPage := fun _ => .error "boom" }

/-- C8 witness: the advisory record on a failed help-page fetch. -/
theorem getTroubleshootingContractWitness :
    getTroubleshootingInfo c8Env "dishwasher" "not draining" =
      { appliance := "dishwasher", symptom := "not draining", tips := [],
        suggestedParts := [], message := troubleFailMsg } :=
  ((getTroubleshootingContract c8Env "dishwasher" "not draining").1 "boom" rfl).1
